import Mathlib

/-!
Shallow embedding of the Roberto voice-assistant widget and its relay
backend.

Frontend (RobertoAI.tsx): the relay call `getAIResponse`, the
recognition result handler `recognition.onresult`, the recognition
error handler `recognition.onerror`, the button handler
`toggleListening` and the overlay close handler `closeOverlay` are
modelled as pure functions over an explicit widget state.  Asynchronous
I/O outcomes (the fetch result) are passed in as a value of an outcome
type, and side effects (starting or stopping capture, issuing the relay
request, speaking, logging an error) are returned as an explicit effect
list.  Each handler in the source runs to completion on the single
browser event queue, so one handler invocation is modelled as one pure
step; the in-flight flag value at entry records whether a previous
relay request is still outstanding at that moment.

Backend (server.js, the unnamed express source file): the POST
/api/chat route is modelled as `handleChat`, a pure function from the
request message and the upstream fetch outcome to an HTTP status plus
response body.
-/

namespace Roberto

/-- A relay HTTP request as issued by the widget: the fetch URL and the
JSON body fields message and systemPrompt. -/
structure Request where
  url : String
  message : String
  systemPrompt : String
deriving DecidableEq

/-- Outcome of the fetch performed by getAIResponse, as observable by
the surrounding JavaScript: the promise rejects (network error), the
response has a non-ok status (the handler then throws an Error with the
status, caught by its own catch), the response is ok but its body does
not parse as JSON (response.json() rejects with some message), or the
response is ok and parses, with an optional response field. -/
inductive FetchOutcome where
  | networkError (msg : String)
  | httpError (status : Nat)
  | okUnparsable (msg : String)
  | okJson (responseField : Option String)
deriving DecidableEq

/-- JavaScript String.prototype.trim: removes whitespace characters
from both ends of the string.  Modelled structurally over the character
list so that it evaluates by kernel reduction. -/
def jsTrim (s : String) : String :=
  String.mk
    (((s.data.dropWhile Char.isWhitespace).reverse.dropWhile
        Char.isWhitespace).reverse)

/-- JavaScript pattern value-or-default: an absent or empty string field
is falsy, so data.response with a fallback yields the fallback for both
none and the empty string. -/
def jsField (v : Option String) (fallback : String) : String :=
  match v with
  | some s => if s = "" then fallback else s
  | none => fallback

/-- The fallback text used when the parsed body carries no usable
response field. -/
def couldNotProcessMsg : String := "I couldn\x27t process that request."

/-- The apology produced by the catch branch of getAIResponse, with the
message of the caught error appended. -/
def connectionErrorMsg (emsg : String) : String :=
  "Sorry, I\x27m having trouble connecting to the AI service. Error: " ++ emsg

/-- The message of the Error thrown by getAIResponse on a non-ok
response status. -/
def apiStatusErrorMsg (status : Nat) : String :=
  "API returned status " ++ toString status

/-- JavaScript String.prototype.startsWith with argument p, modelled
structurally over the character lists so that it evaluates by kernel
reduction. -/
def jsStartsWith (s p : String) : Bool :=
  p.data.isPrefixOf s.data

/-- Endpoint normalization in getAIResponse: https:// is prepended only
when the configured endpoint starts with neither http:// nor https://;
otherwise the endpoint is used unchanged. -/
def normalizeEndpoint (endpoint : String) : String :=
  if !(jsStartsWith endpoint "http://") && !(jsStartsWith endpoint "https://") then
    "https://" ++ endpoint
  else
    endpoint

/-- Result of one call to getAIResponse: the string the promise
resolves to, and the request issued over the network, if any.  The
source function catches every rejection internally, so the model is a
total function into this type: there is no error result. -/
structure AIResult where
  text : String
  request : Option Request
deriving DecidableEq

/-- The relay call getAIResponse.  A blank (empty after trim) message
returns the empty string before any request is built.  Otherwise the
endpoint is normalized, one request is issued, and the outcome is
translated: ok-and-parsed yields the response field with a fallback, a
non-ok status yields the apology carrying the thrown status message,
and a rejected fetch or an unparsable ok body yields the apology
carrying that error message. -/
def getAIResponse (apiEndpoint systemPrompt text : String)
    (o : FetchOutcome) : AIResult :=
  if jsTrim text = "" then { text := "", request := none }
  else
    let req : Request :=
      { url := normalizeEndpoint apiEndpoint
        message := text
        systemPrompt := systemPrompt }
    match o with
    | FetchOutcome.networkError msg =>
        { text := connectionErrorMsg msg, request := some req }
    | FetchOutcome.httpError status =>
        { text := connectionErrorMsg (apiStatusErrorMsg status), request := some req }
    | FetchOutcome.okUnparsable msg =>
        { text := connectionErrorMsg msg, request := some req }
    | FetchOutcome.okJson rf =>
        { text := jsField rf couldNotProcessMsg, request := some req }

/-- The widget state: the two useState values isListening and
isProcessing, the displayed transcript responseText, and the two refs
requestInFlightRef and recognitionActive. -/
structure WidgetState where
  isListening : Bool
  isProcessing : Bool
  responseText : String
  requestInFlight : Bool
  recognitionActive : Bool
deriving DecidableEq

/-- Observable side effects of the handlers: a console error log,
starting or stopping the recognition capture stream, issuing a relay
request over the network, and invoking speech playback. -/
inductive Effect where
  | logError (msg : String)
  | startCapture
  | stopCapture
  | relayCall (req : Request)
  | speak (text : String)
deriving DecidableEq

/-- Whether an effect is a relay network call. -/
def isRelayCall : Effect → Bool
  | Effect.relayCall _ => true
  | _ => false

/-- Number of relay network calls in an effect list. -/
def relayCount (effs : List Effect) : Nat :=
  (effs.filter isRelayCall).length

/-- One complete run of the recognition.onresult handler for an event
whose accumulated transcript is transcript and whose last segment has
the given isFinal mark.  The displayed transcript is always replaced by
the accumulated transcript first.  Only when the segment is final and
the in-flight flag is clear does the handler set the flag, await
getAIResponse (its fetch outcome is the parameter o), append the result
after an AI marker, invoke speech playback with the result, and clear
the flag in its finally block.  getAIResponse toggles isProcessing on
and back off around the request unless it short-circuits on a blank
message, so the net isProcessing at handler exit is false exactly when
a request path ran. -/
def onresultStep (apiEndpoint systemPrompt : String) (s : WidgetState)
    (transcript : String) (isFinal : Bool) (o : FetchOutcome) :
    WidgetState × List Effect :=
  let s1 : WidgetState := { s with responseText := transcript }
  if isFinal && !s1.requestInFlight then
    let r := getAIResponse apiEndpoint systemPrompt transcript o
    let s2 : WidgetState :=
      { s1 with
        responseText := s1.responseText ++ "\n\nAI: " ++ r.text
        isProcessing := if jsTrim transcript = "" then s1.isProcessing else false
        requestInFlight := false }
    (s2, (r.request.toList.map Effect.relayCall) ++ [Effect.speak r.text])
  else
    (s1, [])

/-- The recognition.onerror handler: logs the error to the console and
sets both isListening and isProcessing to false.  It emits no capture
restart and no relay call. -/
def onerror (s : WidgetState) (errMsg : String) : WidgetState × List Effect :=
  ({ s with isListening := false, isProcessing := false },
   [Effect.logError ("Speech recognition error " ++ errMsg)])

/-- The toggleListening button handler.  When the platform exposed no
speech recognition capability (recognitionRef is null) it logs an error
and returns with the state untouched.  Otherwise it either stops
capture (when listening) or resets the in-flight flag, replaces the
transcript, and starts capture (when not listening). -/
def toggleListening (hasRecognition : Bool) (s : WidgetState) :
    WidgetState × List Effect :=
  if hasRecognition = false then
    (s, [Effect.logError "Speech recognition not supported"])
  else if s.isListening then
    ({ s with recognitionActive := false, isListening := false },
     [Effect.stopCapture])
  else
    ({ s with
        requestInFlight := false
        responseText := "Listening..."
        recognitionActive := true
        isListening := true },
     [Effect.startCapture])

/-- The closeOverlay handler, the stop operation of the session: it
stops capture only when currently listening with a recognition object
present, and unconditionally sets isListening to false. -/
def closeOverlay (hasRecognition : Bool) (s : WidgetState) :
    WidgetState × List Effect :=
  if s.isListening && hasRecognition then
    ({ s with recognitionActive := false, isListening := false },
     [Effect.stopCapture])
  else
    ({ s with isListening := false }, [])

/-- Whether a string is the text of one of the degraded-service
messages getAIResponse can produce in place of provider text. -/
def isApologyText (s : String) : Prop :=
  s = couldNotProcessMsg ∨ ∃ m, s = connectionErrorMsg m

/-- Outcome of the upstream fetch performed by the backend chat route:
the fetch rejects, or a response arrives with an ok mark, a status, a
flag telling whether its body parses as JSON, and the optional
extracted message content. -/
inductive UpstreamOutcome where
  | networkError (msg : String)
  | response (ok : Bool) (status : Nat) (bodyParses : Bool)
      (content : Option String)
deriving DecidableEq

/-- Body of a backend chat response: either an error object with an
error string field, or a success object with a response string field. -/
inductive ChatBody where
  | errorBody (error : String)
  | responseBody (response : String)
deriving DecidableEq

/-- A backend HTTP response: status code and JSON body. -/
structure ChatResult where
  status : Nat
  body : ChatBody
deriving DecidableEq

/-- The POST /api/chat route handler.  A missing or empty message field
yields 400.  A rejected upstream fetch lands in the outer catch: 500
with a generic error body.  A non-ok upstream response first awaits
response.json() with no local catch, so an unparsable error body also
throws into the outer catch and yields 500; a parsable one yields the
upstream status with a fixed error string.  An ok upstream response
yields 200 with the extracted content or a fallback, unless its body is
unparsable, which again lands in the outer catch. -/
def handleChat (message : Option String) (o : UpstreamOutcome) : ChatResult :=
  match message with
  | none => { status := 400, body := ChatBody.errorBody "Message is required" }
  | some m =>
    if m = "" then
      { status := 400, body := ChatBody.errorBody "Message is required" }
    else
      match o with
      | UpstreamOutcome.networkError _ =>
          { status := 500, body := ChatBody.errorBody "Internal server error" }
      | UpstreamOutcome.response ok status bodyParses content =>
          if ok = false then
            if bodyParses then
              { status := status
                body := ChatBody.errorBody "Failed to get response from OpenAI" }
            else
              { status := 500, body := ChatBody.errorBody "Internal server error" }
          else
            if bodyParses then
              { status := 200
                body := ChatBody.responseBody (jsField content couldNotProcessMsg) }
            else
              { status := 500, body := ChatBody.errorBody "Internal server error" }

end Roberto

namespace Roberto

/-- Claim C5: a finalized transcript that is empty or whitespace-only
makes the relay call return immediately with the empty string and issue
no network request. -/
theorem blank_transcript_no_request (ep sp t : String) (o : FetchOutcome)
    (h : jsTrim t = "") :
    getAIResponse ep sp t o = { text := "", request := none } := by
  simp [getAIResponse, h]

/-- Witness for blank_transcript_no_request at a whitespace-only
transcript. -/
theorem blank_transcript_no_request_witness :
    getAIResponse "http://localhost:3000/api/chat" "sys" "   "
        (FetchOutcome.okJson (some "Hi"))
      = { text := "", request := none } :=
  blank_transcript_no_request "http://localhost:3000/api/chat" "sys" "   "
    (FetchOutcome.okJson (some "Hi")) (by decide)

/-- Claim C1: the in-flight guard of the result handler.  A finalized
segment arriving while the flag is set is dropped: no relay call, no
speech, no queueing, the state changes only by replacing the displayed
transcript, and the flag stays owned by the outstanding request.  A
finalized non-blank segment that finds the flag clear makes exactly one
relay call, and the flag is clear again at handler exit, the finally
block having cleared it on every completion path. -/
theorem relay_inflight_guard (ep sp : String) (s : WidgetState) (t : String)
    (o : FetchOutcome) :
    (s.requestInFlight = true →
        onresultStep ep sp s t true o = ({ s with responseText := t }, []))
    ∧ (s.requestInFlight = false → jsTrim t ≠ "" →
        relayCount (onresultStep ep sp s t true o).2 = 1
        ∧ (onresultStep ep sp s t true o).1.requestInFlight = false) := by
  constructor
  · intro h
    simp [onresultStep, h]
  · intro h ht
    cases o <;>
      simp [onresultStep, getAIResponse, h, ht, relayCount, isRelayCall]

/-- Witness for relay_inflight_guard: a segment arriving mid-request is
dropped, and the same segment finding the flag clear issues one call. -/
theorem relay_inflight_guard_witness :
    onresultStep "api.example.com" "sys"
        { isListening := true, isProcessing := true, responseText := "hi"
          requestInFlight := true, recognitionActive := true }
        "hi there" true (FetchOutcome.okJson (some "Hello"))
      = ({ isListening := true, isProcessing := true
           responseText := "hi there", requestInFlight := true
           recognitionActive := true }, [])
    ∧ relayCount (onresultStep "api.example.com" "sys"
        { isListening := true, isProcessing := false, responseText := "hi"
          requestInFlight := false, recognitionActive := true }
        "hi there" true (FetchOutcome.okJson (some "Hello"))).2 = 1 :=
  ⟨(relay_inflight_guard "api.example.com" "sys"
      { isListening := true, isProcessing := true, responseText := "hi"
        requestInFlight := true, recognitionActive := true }
      "hi there" (FetchOutcome.okJson (some "Hello"))).1 rfl,
   ((relay_inflight_guard "api.example.com" "sys"
      { isListening := true, isProcessing := false, responseText := "hi"
        requestInFlight := false, recognitionActive := true }
      "hi there" (FetchOutcome.okJson (some "Hello"))).2 rfl (by decide)).1⟩

/-- Claim C2 counterexample: with the default configured endpoint,
which starts with http://, the relay call issues its request to that
very http URL; the used URL does not have the https scheme, so the
claim that no request is ever issued to a non-https URL is false. -/
theorem endpoint_http_passthrough_cex :
    (getAIResponse "http://localhost:3000/api/chat" "sys" "hello"
        (FetchOutcome.okJson (some "Hi"))).request
      = some { url := "http://localhost:3000/api/chat", message := "hello"
               systemPrompt := "sys" }
    ∧ jsStartsWith "http://localhost:3000/api/chat" "https://" = false := by
  constructor
  · decide
  · decide

/-- Claim C2 as amended: the normalization prepends https:// exactly
when the configured endpoint starts with neither http:// nor https://;
an endpoint already carrying the http:// or the https:// scheme is used
unchanged, so an http:// endpoint stays on insecure transport. -/
theorem endpoint_normalization (e : String) :
    ((jsStartsWith e "http://" = false ∧ jsStartsWith e "https://" = false) →
        normalizeEndpoint e = "https://" ++ e)
    ∧ ((jsStartsWith e "http://" = true ∨ jsStartsWith e "https://" = true) →
        normalizeEndpoint e = e) := by
  constructor
  · rintro ⟨h1, h2⟩
    simp [normalizeEndpoint, h1, h2]
  · rintro (h | h) <;> simp [normalizeEndpoint, h]

/-- Witness for endpoint_normalization on a bare host and on the
default http endpoint. -/
theorem endpoint_normalization_witness :
    normalizeEndpoint "api.example.com/chat" = "https://" ++ "api.example.com/chat"
    ∧ normalizeEndpoint "http://localhost:3000/api/chat"
        = "http://localhost:3000/api/chat" :=
  ⟨(endpoint_normalization "api.example.com/chat").1 ⟨by decide, by decide⟩,
   (endpoint_normalization "http://localhost:3000/api/chat").2
     (Or.inl (by decide))⟩

/-- Claim C3: for every non-blank input and every fetch outcome the
relay call resolves, to the provider response text when the outcome is
an ok parsed body with a non-empty response field, and to one of the
degraded-service apology strings in every other case.  Never throwing
is built into the embedding: getAIResponse is a total function into
AIResult, mirroring the try/catch that swallows every rejection. -/
theorem relay_call_resolves (ep sp t : String) (o : FetchOutcome)
    (h : jsTrim t ≠ "") :
    (∃ r, o = FetchOutcome.okJson (some r)
        ∧ (getAIResponse ep sp t o).text = r)
    ∨ isApologyText (getAIResponse ep sp t o).text := by
  cases o with
  | networkError msg =>
    right
    exact Or.inr ⟨msg, by simp [getAIResponse, h]⟩
  | httpError status =>
    right
    exact Or.inr ⟨apiStatusErrorMsg status, by simp [getAIResponse, h]⟩
  | okUnparsable msg =>
    right
    exact Or.inr ⟨msg, by simp [getAIResponse, h]⟩
  | okJson rf =>
    match rf with
    | none =>
      right
      left
      simp [getAIResponse, h, jsField]
    | some r =>
      by_cases hr : r = ""
      · right
        left
        simp [getAIResponse, h, jsField, hr]
      · left
        exact ⟨r, rfl, by simp [getAIResponse, h, jsField, hr]⟩

/-- Witness for relay_call_resolves at an unreachable-network outcome. -/
theorem relay_call_resolves_witness :
    (∃ r, FetchOutcome.networkError "Failed to fetch"
        = FetchOutcome.okJson (some r)
        ∧ (getAIResponse "api.example.com" "sys" "hello"
            (FetchOutcome.networkError "Failed to fetch")).text = r)
    ∨ isApologyText (getAIResponse "api.example.com" "sys" "hello"
        (FetchOutcome.networkError "Failed to fetch")).text :=
  relay_call_resolves "api.example.com" "sys" "hello"
    (FetchOutcome.networkError "Failed to fetch") (by decide)

/-- Claim C4: a relay response with any non-success HTTP status makes
the result handler append to the displayed transcript an apology that
contains the status code; the handler is a total function, so no
exception escapes it. -/
theorem relay_error_status_displayed (ep sp : String) (s : WidgetState)
    (t : String) (status : Nat) (hf : s.requestInFlight = false)
    (ht : jsTrim t ≠ "") :
    (onresultStep ep sp s t true (FetchOutcome.httpError status)).1.responseText
      = t ++ "\n\nAI: " ++ connectionErrorMsg (apiStatusErrorMsg status)
    ∧ ∃ p q,
      (onresultStep ep sp s t true
          (FetchOutcome.httpError status)).1.responseText
        = p ++ toString status ++ q := by
  have h1 : (onresultStep ep sp s t true
      (FetchOutcome.httpError status)).1.responseText
      = t ++ "\n\nAI: " ++ connectionErrorMsg (apiStatusErrorMsg status) := by
    simp [onresultStep, getAIResponse, hf, ht]
  refine ⟨h1,
    t ++ "\n\nAI: "
      ++ "Sorry, I\x27m having trouble connecting to the AI service. Error: "
      ++ "API returned status ", "", ?_⟩
  rw [h1]
  simp only [connectionErrorMsg, apiStatusErrorMsg, String.append_assoc,
    String.append_empty]

/-- Witness for relay_error_status_displayed at HTTP status 500. -/
theorem relay_error_status_displayed_witness :
    (onresultStep "api.example.com" "sys"
        { isListening := true, isProcessing := false, responseText := ""
          requestInFlight := false, recognitionActive := true }
        "hello" true (FetchOutcome.httpError 500)).1.responseText
      = "hello" ++ "\n\nAI: " ++ connectionErrorMsg (apiStatusErrorMsg 500)
    ∧ ∃ p q,
      (onresultStep "api.example.com" "sys"
          { isListening := true, isProcessing := false, responseText := ""
            requestInFlight := false, recognitionActive := true }
          "hello" true (FetchOutcome.httpError 500)).1.responseText
        = p ++ toString 500 ++ q :=
  relay_error_status_displayed "api.example.com" "sys"
    { isListening := true, isProcessing := false, responseText := ""
      requestInFlight := false, recognitionActive := true }
    "hello" 500 rfl (by decide)

/-- Claim C6: with no speech recognition capability on the platform,
the start handler returns with the state exactly unchanged, so
isListening and isProcessing keep their idle values and no capture
starts; the failure is surfaced by the emitted not-supported error,
the one surfacing the source performs. -/
theorem start_unsupported_idle (s : WidgetState) :
    toggleListening false s
      = (s, [Effect.logError "Speech recognition not supported"]) := by
  simp [toggleListening]

/-- Claim C7: a recognition-stream error drives both isListening and
isProcessing to false, emits exactly the logged error, and emits no
capture restart and no relay call, so nothing is retried. -/
theorem recognition_error_forces_idle (s : WidgetState) (msg : String) :
    (onerror s msg).1.isListening = false
    ∧ (onerror s msg).1.isProcessing = false
    ∧ (onerror s msg).2
        = [Effect.logError ("Speech recognition error " ++ msg)]
    ∧ Effect.startCapture ∉ (onerror s msg).2
    ∧ relayCount (onerror s msg).2 = 0 := by
  refine ⟨rfl, rfl, rfl, ?_, rfl⟩
  simp [onerror]

/-- Claim C8 counterexample: an upstream 503 whose error body does not
parse as JSON is answered with status 500, not with the mirrored
upstream status, because the route awaits response.json() on the error
path without a local catch and the outer catch answers 500. -/
theorem upstream_mirror_cex :
    (handleChat (some "hello")
        (UpstreamOutcome.response false 503 false none)).status = 500
    ∧ (500 : Nat) ≠ 503 := by
  constructor
  · decide
  · decide

/-- Claim C8 as amended: an upstream non-success response whose error
body parses as JSON is mirrored, same status with an error-string body;
when the error body is unparsable the route answers 500, again with an
error-string body, so the body shape holds in both cases but the status
mirrors the upstream one only in the parsable case. -/
theorem upstream_error_mirrored (m : String) (status : Nat)
    (c : Option String) (hm : m ≠ "") :
    handleChat (some m) (UpstreamOutcome.response false status true c)
      = { status := status
          body := ChatBody.errorBody "Failed to get response from OpenAI" }
    ∧ handleChat (some m) (UpstreamOutcome.response false status false c)
      = { status := 500
          body := ChatBody.errorBody "Internal server error" } := by
  constructor <;> simp [handleChat, hm]

/-- Witness for upstream_error_mirrored at upstream status 503. -/
theorem upstream_error_mirrored_witness :
    handleChat (some "hello") (UpstreamOutcome.response false 503 true none)
      = { status := 503
          body := ChatBody.errorBody "Failed to get response from OpenAI" }
    ∧ handleChat (some "hello") (UpstreamOutcome.response false 503 false none)
      = { status := 500
          body := ChatBody.errorBody "Internal server error" } :=
  upstream_error_mirrored "hello" 503 none (by decide)

/-- Claim C9: the stop operation closeOverlay always leaves isListening
false and never starts capture; called while listening it emits exactly
one capture stop; and it is idempotent: a second call changes nothing
and emits no effect at all, so capture is not re-stopped. -/
theorem stop_idempotent (hr : Bool) (s : WidgetState) :
    (closeOverlay hr s).1.isListening = false
    ∧ Effect.startCapture ∉ (closeOverlay hr s).2
    ∧ (s.isListening = true → hr = true →
        (closeOverlay hr s).2 = [Effect.stopCapture])
    ∧ closeOverlay hr (closeOverlay hr s).1 = ((closeOverlay hr s).1, []) := by
  cases s with
  | mk il ip rt rif ra =>
    cases il <;> cases hr <;>
      simp [closeOverlay]

/-- Witness for stop_idempotent starting from a listening state. -/
theorem stop_idempotent_witness :
    (closeOverlay true
        { isListening := true, isProcessing := false, responseText := "hi"
          requestInFlight := false, recognitionActive := true }).1.isListening
      = false
    ∧ (closeOverlay true
        { isListening := true, isProcessing := false, responseText := "hi"
          requestInFlight := false, recognitionActive := true }).2
      = [Effect.stopCapture] :=
  ⟨(stop_idempotent true
      { isListening := true, isProcessing := false, responseText := "hi"
        requestInFlight := false, recognitionActive := true }).1,
   (stop_idempotent true
      { isListening := true, isProcessing := false, responseText := "hi"
        requestInFlight := false, recognitionActive := true }).2.2.1 rfl rfl⟩

/-- Claim C10: a blank finalized transcript arriving with the flag
clear issues no network request, yet the handler still appends the AI
marker followed by the empty result to the displayed transcript and
still emits exactly one speech playback, with the empty string. -/
theorem blank_final_display_and_speak (ep sp : String) (s : WidgetState)
    (t : String) (o : FetchOutcome) (ht : jsTrim t = "")
    (hf : s.requestInFlight = false) :
    onresultStep ep sp s t true o
      = ({ s with responseText := t ++ "\n\nAI: " }, [Effect.speak ""]) := by
  cases s with
  | mk il ip rt rif ra =>
    simp only at hf
    subst hf
    simp [onresultStep, getAIResponse, ht, String.append_empty]

/-- Witness for blank_final_display_and_speak on a whitespace-only
finalized transcript. -/
theorem blank_final_display_and_speak_witness :
    onresultStep "api.example.com" "sys"
        { isListening := true, isProcessing := false, responseText := "x"
          requestInFlight := false, recognitionActive := true }
        " " true (FetchOutcome.okJson (some "Hi"))
      = ({ isListening := true, isProcessing := false
           responseText := " " ++ "\n\nAI: ", requestInFlight := false
           recognitionActive := true }, [Effect.speak ""]) :=
  blank_final_display_and_speak "api.example.com" "sys"
    { isListening := true, isProcessing := false, responseText := "x"
      requestInFlight := false, recognitionActive := true }
    " " (FetchOutcome.okJson (some "Hi")) (by decide) rfl

end Roberto
